import Mathlib

/-!
# Verification of the wasmiot supervisor (Rust port)

A shallow embedding of the supervisor's core data model and operations,
together with theorems settling the specification claims about them.

Embedded source files (paths relative to the repository root):
* `src/api/run.rs` — request handler chain-step guard, chained-call header
  construction, `make_history`;
* `src/structs/deployment_orchestrator.rs` — `MountPathFile::list_from_multipart`;
* `src/lib/wasmtime.rs` — `load_module`, `run_function`, memory access,
  `link_remote_functions`;
* `src/api/deployment.rs` — `deployment_delete`;
* `src/structs/request_entry.rs` — `init_request_id`.

Machine integers: the step counter is a Rust `usize`; it is embedded as `Nat`
with saturation at `2 ^ 64 - 1` where the source uses `saturating_add`.
External crates (`wasmtime`, `sha2`, `reqwest`) are modelled by explicit
semantic parameters or small state machines, as documented at each definition.
-/

namespace Supervisor

/-! ## Wasm value model (`wasmtime::Val`, `wasmtime::ValType`)

Only the four numeric types appear in the supervisor's code paths.
`Val.f32`/`Val.f64` carry raw bit patterns, exactly as `wasmtime::Val::F32(u32)`
and `F64(u64)` do. -/

inductive ValType where
  | i32 | i64 | f32 | f64
deriving DecidableEq, Repr

inductive Val where
  | i32 (n : Int)
  | i64 (n : Int)
  | f32 (bits : Nat)
  | f64 (bits : Nat)
deriving DecidableEq, Repr

/-- The type tag of a value. -/
def Val.type : Val → ValType
  | .i32 _ => .i32
  | .i64 _ => .i64
  | .f32 _ => .f32
  | .f64 _ => .f64

/-! ## Chain-step guard (`run_module_function`, src/api/run.rs lines 39-60)

The handler reads the `X-Chain-Step` header (absent or unparsable means `0`)
and rejects with HTTP 400 when the step strictly exceeds
`MAX_DEPLOYMENT_STEPS`, before the file-serving branch, the deployment
lookup, the multipart reading, and the Wasm execution.  Everything after the
guard is abstracted as the continuation `rest`, which reports how many Wasm
calls and outbound requests it makes; the rejection branch by construction
performs none. -/

structure HandlerEffects where
  wasmCalls : Nat
  outboundRequests : Nat
deriving DecidableEq, Repr

structure HandlerResult where
  status : Nat
  effects : HandlerEffects
deriving DecidableEq, Repr

/-- `X-Chain-Step` parsing: `headers.get(..).and_then(to_str).and_then(parse).unwrap_or(0)`.
The already-parsed header value is modelled as `Option Nat`. -/
def chain_step_of_header (header : Option Nat) : Nat := header.getD 0

/-- The guard prefix of `run_module_function`: reject with 400 (and no side
effect at all) when `step_index > MAX_DEPLOYMENT_STEPS`, otherwise run the
rest of the handler on the parsed step index. -/
def run_module_function (maxSteps : Nat) (header : Option Nat)
    (rest : Nat → HandlerResult) : HandlerResult :=
  let stepIndex := chain_step_of_header header
  if stepIndex > maxSteps then
    { status := 400, effects := { wasmCalls := 0, outboundRequests := 0 } }
  else
    rest stepIndex

/-! ## Chained-call header construction (`do_wasm_work`, src/api/run.rs lines 431-445)

The outgoing request's headers start from the call-data headers (header names
are normalized to lowercase by `reqwest::header::HeaderName`), and then
`X-Chain-Step` is inserted with value `step_index.saturating_add(1)`;
`HeaderMap::insert` replaces any existing entry for the key. -/

/-- Largest `usize` value on the 64-bit targets the supervisor is built for. -/
def USIZE_MAX : Nat := 2 ^ 64 - 1

/-- `usize::saturating_add(1)`. -/
def saturating_add_one (n : Nat) : Nat := min (n + 1) USIZE_MAX

/-- `HeaderMap::insert`: replace any entry with the same (lowercase) name. -/
def header_insert (hs : List (String × String)) (k v : String) :
    List (String × String) :=
  hs.filter (fun p => p.1 ≠ k) ++ [(k, v)]

/-- The headers of the chained next-hop request built in `do_wasm_work`:
copy the call-data headers (names lowercased), then insert
`x-chain-step: step_index.saturating_add(1)`. -/
def chained_request_headers (callHeaders : List (String × String))
    (stepIndex : Nat) : List (String × String) :=
  header_insert (callHeaders.map (fun p => (p.1.toLower, p.2)))
    "x-chain-step" (toString (saturating_add_one stepIndex))

/-! ## Mount derivation (`MountPathFile::list_from_multipart`,
src/structs/deployment_orchestrator.rs lines 152-192)

`MultipartMediaType` holds a media type, an object schema (a `HashMap` of
property name to property, embedded as an association list) and an encoding
table (`HashMap<String, OpenApiEncodingObject>`, also an association list;
keys are unique in the source maps).  Of `OpenApiEncodingObject` only the
`contentType` field is consulted by this code path; the remaining fields
(`headers`, `style`, `explode`, `allowReserved`) are irrelevant here and
omitted from the embedding. -/

structure OpenApiEncodingObject where
  content_type : Option String
deriving DecidableEq, Repr

structure SchemaProperty where
  type : String
  format : Option String
deriving DecidableEq, Repr

structure SchemaObject where
  type : String
  properties : List (String × SchemaProperty)
deriving DecidableEq, Repr

inductive MountStage where
  | deployment | execution | output
deriving DecidableEq, Repr

structure MountPathFile where
  path : String
  media_type : String
  stage : Option MountStage
deriving DecidableEq, Repr

structure MultipartMediaType where
  media_type : String
  schema : SchemaObject
  encoding : List (String × OpenApiEncodingObject)
deriving DecidableEq, Repr

/-- One iteration of the collection loop in `list_from_multipart`: a property
contributes a mount exactly when it `is_binary` (type `string`, format
`binary`) and the encoding table has an entry for its name whose
`contentType` is present. -/
def mount_of_property (encoding : List (String × OpenApiEncodingObject))
    (p : String × SchemaProperty) : Option MountPathFile :=
  if p.2.type = "string" ∧ p.2.format = some "binary" then
    match (encoding.lookup p.1).bind OpenApiEncodingObject.content_type with
    | some contentType => some { path := p.1, media_type := contentType, stage := none }
    | none => none
  else
    none

/-- `MountPathFile::list_from_multipart`: validate the media type, the schema
type and non-emptiness of the properties, then collect a mount from every
binary property that has an encoding entry with a `contentType`. -/
def list_from_multipart (m : MultipartMediaType) :
    Except String (List MountPathFile) :=
  if m.media_type ≠ "multipart/form-data" then
    .error ("Expected multipart/form-data, got " ++ m.media_type)
  else if m.schema.type ≠ "object" then
    .error ("Only object schemas supported, got " ++ m.schema.type)
  else if m.schema.properties.isEmpty then
    .error "Expected properties for multipart schema, properties was empty instead."
  else
    .ok (m.schema.properties.filterMap (mount_of_property m.encoding))

/-! ## Module loading and the serialized-artifact cache
(`WasmtimeRuntime::load_module`, src/lib/wasmtime.rs lines 139-186)

The filesystem is modelled by the modification time it reports per path
(`none` = the path does not exist, which is also the only
`fs::metadata` failure mode modelled).  `load_module` on a module name not
yet in `self.modules` decides `should_compile`: the serialized artifact is
missing, or its mtime is strictly older than the source's.  Compiling writes
the serialized artifact (its mtime becomes `now`); otherwise the filesystem
is untouched and the existing artifact is deserialized in place. -/

def FsTimes := String → Option Nat

/-- The `should_compile` decision of `load_module`.  `error` is the `?` exit
taken when the source `.wasm` has no metadata (the serialized artifact was
just successfully probed, so its second probe is not a failure source). -/
def should_compile (fs : FsTimes) (srcPath serialPath : String) :
    Except Unit Bool :=
  match fs serialPath with
  | some serialT =>
      match fs srcPath with
      | some srcT => .ok (decide (serialT < srcT))
      | none => .error ()
  | none => .ok true

/-- `load_module` for the full (non-armv6) profile, restricted to its cache
behaviour: returns whether the compiler ran and the filesystem afterwards.
A module already present in `self.modules` is left alone. -/
def load_module (now : Nat) (fs : FsTimes) (loadedModules : List String)
    (name srcPath serialPath : String) : Except Unit (Bool × FsTimes) :=
  if name ∈ loadedModules then
    .ok (false, fs)
  else
    match should_compile fs srcPath serialPath with
    | .error e => .error e
    | .ok true => .ok (true, fun p => if p = serialPath then some now else fs p)
    | .ok false => .ok (false, fs)

/-! ## Runtime model (`WasmtimeRuntime`, src/lib/wasmtime.rs)

A runtime owns a map of module name to `WasmtimeModule`; a module optionally
holds an instance.  An instantiated module exposes typed functions and one
exported linear memory (the export named by `MEMORY_NAME`), modelled as its
byte list.  The behaviour of a Wasm function is the `impl` field: a partial
map from argument values to either result values or a trap message.  That is
the semantic parameter standing for the `wasmtime` crate's `Func::call`
target. -/

structure FuncModel where
  paramTypes : List ValType
  resultTypes : List ValType
  impl : List Val → Except String (List Val)

structure InstanceModel where
  functions : List (String × FuncModel)
  mem : List Nat

structure ModuleModel where
  inst : Option InstanceModel

structure RuntimeModel where
  modules : List (String × ModuleModel)

/-- `get_module`: look the name up in `self.modules` (a miss only logs). -/
def get_module (rt : RuntimeModel) (moduleName : String) : Option ModuleModel :=
  rt.modules.lookup moduleName

/-- `get_instance`: the module's instance, when the module is loaded. -/
def get_instance (rt : RuntimeModel) (moduleName : String) : Option InstanceModel :=
  (get_module rt moduleName).bind ModuleModel.inst

/-- `get_function`: `instance.get_func(store, func_name)`. -/
def get_function (rt : RuntimeModel) (moduleName funcName : String) :
    Option FuncModel :=
  (get_instance rt moduleName).bind (fun i => i.functions.lookup funcName)

/-- `get_func_params`: the function's parameter and result types, or two
empty lists when the function cannot be found. -/
def get_func_params (rt : RuntimeModel) (moduleName funcName : String) :
    List ValType × List ValType :=
  match get_function rt moduleName funcName with
  | some f => (f.paramTypes, f.resultTypes)
  | none => ([], [])

/-- `get_return_types`. -/
def get_return_types (rt : RuntimeModel) (moduleName funcName : String) :
    List ValType :=
  (get_func_params rt moduleName funcName).2

/-- `wasmtime::Func::call` on a results slice of length `nresults`: the call
errs when the argument types mismatch the signature, when the results slice
length differs from the arity, or when the body traps; only a fully
successful call produces result values (which then match the declared result
types, a guarantee of Wasm execution enforced here as a check). -/
def func_call (f : FuncModel) (params : List Val) (nresults : Nat) :
    Except String (List Val) :=
  if params.map Val.type ≠ f.paramTypes then
    .error "argument types incompatible with function signature"
  else if nresults ≠ f.resultTypes.length then
    .error "results slice length mismatch"
  else
    match f.impl params with
    | .error e => .error e
    | .ok vals =>
        if vals.map Val.type = f.resultTypes then .ok vals
        else .error "wasm type violation"

/-- `run_function` (src/lib/wasmtime.rs lines 326-346): pre-size the results
buffer with `Val::I32(0)`, attempt the call, and return the buffer.  The
`Result` of the call is bound to `_` and discarded in the source, so a failed
or missing call leaves the zero-initialized buffer as the returned value and
surfaces no error: the return type is a plain `Vec<Val>`. -/
def run_function (rt : RuntimeModel) (moduleName funcName : String)
    (params : List Val) (returns : Nat) : List Val :=
  let buffer := List.replicate returns (Val.i32 0)
  match get_function rt moduleName funcName with
  | none => buffer
  | some f =>
      match func_call f params returns with
      | .ok vals => vals
      | .error _ => buffer

/-! ## Linear-memory access (src/lib/wasmtime.rs lines 189-208)

`read_from_memory` / `write_to_memory` fetch the module's exported memory;
when `get_memory` yields `None` (module not loaded, no instance) they log and
fall through to `Ok(())`, touching neither the destination buffer nor any
memory.  When the memory exists, `Memory::read`/`Memory::write` succeed
exactly when `offset + buffer.len()` fits, else `MemoryAccessError` is
propagated by `?`. -/

inductive MemoryAccessError where
  | outOfBounds
deriving DecidableEq, Repr

/-- `get_memory` with the default export name `MEMORY_NAME`. -/
def get_memory (rt : RuntimeModel) (moduleName : String) : Option (List Nat) :=
  (get_instance rt moduleName).map InstanceModel.mem

/-- `Memory::read`: fill the buffer from memory starting at `offset`. -/
def memory_read (mem : List Nat) (offset : Nat) (buffer : List Nat) :
    Except MemoryAccessError (List Nat) :=
  if offset + buffer.length ≤ mem.length then
    .ok ((mem.drop offset).take buffer.length)
  else
    .error .outOfBounds

/-- `Memory::write`: splice the buffer into memory at `offset`. -/
def memory_write (mem : List Nat) (offset : Nat) (buffer : List Nat) :
    Except MemoryAccessError (List Nat) :=
  if offset + buffer.length ≤ mem.length then
    .ok (mem.take offset ++ buffer ++ mem.drop (offset + buffer.length))
  else
    .error .outOfBounds

/-- `read_from_memory`: on success the returned list is the buffer's final
contents (unchanged when the module has no memory to read from). -/
def read_from_memory (rt : RuntimeModel) (moduleName : String) (offset : Nat)
    (buffer : List Nat) : Except MemoryAccessError (List Nat) :=
  match get_memory rt moduleName with
  | some mem => memory_read mem offset buffer
  | none => .ok buffer

/-- Replace the memory of `moduleName`'s instance. -/
def set_memory (rt : RuntimeModel) (moduleName : String) (mem : List Nat) :
    RuntimeModel :=
  { modules := rt.modules.map (fun p =>
      if p.1 = moduleName then
        (p.1, { inst := p.2.inst.map (fun i => { i with mem := mem }) })
      else p) }

/-- `write_to_memory`: on success the returned runtime carries the updated
memory (unchanged when the module has no memory to write into). -/
def write_to_memory (rt : RuntimeModel) (moduleName : String) (offset : Nat)
    (buffer : List Nat) : Except MemoryAccessError RuntimeModel :=
  match get_memory rt moduleName with
  | some mem =>
      match memory_write mem offset buffer with
      | .ok newMem => .ok (set_memory rt moduleName newMem)
      | .error e => .error e
  | none => .ok rt

/-! ## Request entries and history recording
(src/structs/request_entry.rs, `make_history` in src/api/run.rs lines 243-270)

`serde_json::Value` is embedded as the small `JsonVal` sum covering the
shapes this code produces.  `make_history` consumes the outcome of
`do_wasm_work` (an `Err` only arises from deployment lookup, preparation,
file staging or chained-call failures — `run_function` itself is infallible,
see above) and finalizes the entry before appending it to the history. -/

inductive JsonVal where
  | null
  | bool (b : Bool)
  | num (n : Int)
  | str (s : String)
deriving DecidableEq, Repr

structure RequestEntry where
  request_id : String
  deployment_id : String
  module_name : String
  function_name : String
  method : String
  step_index : Nat
  result : Option JsonVal
  outputs : List String
  success : Bool
deriving DecidableEq, Repr

/-- `make_history`: on `Ok(final_json)` mark the entry successful and pass
the value through; on `Err(err)` store the message as the entry's result and
mark it failed.  Either way the entry is the one appended to
`REQUEST_HISTORY`. -/
def make_history (entry : RequestEntry) (work : Except String JsonVal) :
    RequestEntry × Option JsonVal :=
  match work with
  | .ok finalJson => ({ entry with success := true }, some finalJson)
  | .error err => ({ entry with result := some (JsonVal.str err), success := false }, none)

/-- The first wasm output decoded to JSON by type (src/api/run.rs lines
334-340); an empty output vector decodes to `null`.  Floating outputs keep
their bit patterns as numbers here (the exact float decoding is irrelevant to
the claims). -/
def decode_raw_output (outputVals : List Val) : JsonVal :=
  match outputVals.head? with
  | some (Val.i32 i) => .num i
  | some (Val.i64 i) => .num i
  | some (Val.f32 b) => .num b
  | some (Val.f64 b) => .num b
  | none => .null

/-! ## Deployment deletion (`deployment_delete`, src/api/deployment.rs
lines 330-438)

The persistent state visible to deletion: the in-memory `DEPLOYMENTS`
registry (keys unique, as in a `HashMap`), the deployment JSON documents on
disk, and the per-deployment `wasm-modules`/`wasm-params` directories.
Filesystem removals that fail are only logged in the source; the model's
removals are the idealized successful ones, and missing paths are simply
absent from the lists. -/

/-- `INSTANCE_PATH` resolution with its `./instance` default
(src/lib/constants.rs). -/
def INSTANCE_PATH : String := "./instance"

/-- `MODULE_FOLDER = INSTANCE_PATH/wasm-modules`. -/
def MODULE_FOLDER : String := INSTANCE_PATH ++ "/wasm-modules"

/-- `PARAMS_FOLDER = INSTANCE_PATH/wasm-params`. -/
def PARAMS_FOLDER : String := INSTANCE_PATH ++ "/wasm-params"

/-- Modelled from the spec: `DEPLOYMENTS_FOLDER`, referenced by
`get_deployment_path` in src/lib/utils.rs but defined in a constants module
missing from the snapshot; the spec's on-disk layout names it
`instance/deployments`. -/
def DEPLOYMENTS_FOLDER : String := INSTANCE_PATH ++ "/deployments"

/-- `get_deployment_path` (src/lib/utils.rs). -/
def get_deployment_path (deploymentId : String) : String :=
  DEPLOYMENTS_FOLDER ++ "/" ++ deploymentId ++ ".json"

/-- `MODULE_FOLDER.join(&deployment_id)` as used by `deployment_delete`. -/
def module_deployment_path (deploymentId : String) : String :=
  MODULE_FOLDER ++ "/" ++ deploymentId

/-- `PARAMS_FOLDER.join(&deployment_id)` as used by `deployment_delete`. -/
def params_deployment_path (deploymentId : String) : String :=
  PARAMS_FOLDER ++ "/" ++ deploymentId

structure DeployFsState where
  files : List String
  dirs : List String
deriving DecidableEq, Repr

/-- The supervisor state touched by deletion; `δ` is the deployment payload
(runtime, endpoints, …), irrelevant to deletion itself. -/
structure SupervisorState (δ : Type) where
  deployments : List (String × δ)
  fs : DeployFsState

/-- `fs::remove_file` / `fs::remove_dir_all` on the path lists (removal of a
missing path changes nothing, mirroring the logged-and-ignored errors and the
`exists()` guards in the source). -/
def fs_remove (paths : List String) (path : String) : List String :=
  paths.filter (fun p => p ≠ path)

/-- `deployment_delete`: remove the id from `DEPLOYMENTS`; when it was
present, delete the deployment JSON document and the two deployment
directories and answer 200; when it was absent, answer 404 without touching
anything. -/
def deployment_delete {δ : Type} (st : SupervisorState δ) (deploymentId : String) :
    SupervisorState δ × Nat :=
  match st.deployments.lookup deploymentId with
  | some _ =>
      ({ deployments := st.deployments.filter (fun p => p.1 ≠ deploymentId),
         fs := { files := fs_remove st.fs.files (get_deployment_path deploymentId),
                 dirs := fs_remove (fs_remove st.fs.dirs (module_deployment_path deploymentId))
                           (params_deployment_path deploymentId) } }, 200)
  | none => (st, 404)

/-! ## Request-id generation (`RequestEntry::init_request_id`,
src/structs/request_entry.rs lines 67-75)

The id is `hex::encode(Sha256::digest(input))` where
`input = deployment_id ++ ":" ++ module_name ++ ":" ++ function_name ++ ":" ++ timestamp`
and the timestamp is `Utc::now().to_rfc3339()`.  The SHA-256 digest itself
comes from the external `sha2` crate; it is embedded as a parameter
`sha256 : String → List (Fin 256)` (a 32-byte digest), with its
collision-resistance supplied as a hypothesis where a theorem needs it.
`hex::encode` produces the lowercase hex encoding, two digits per byte. -/

/-- The `format!` string hashed by `init_request_id`. -/
def request_id_input (deploymentId moduleName functionName timestamp : String) :
    String :=
  deploymentId ++ ":" ++ moduleName ++ ":" ++ functionName ++ ":" ++ timestamp

/-- A nibble as its lowercase hex character. -/
def hex_digit (n : Fin 16) : Char :=
  if n.val < 10 then Char.ofNat (48 + n.val)
  else Char.ofNat (97 + (n.val - 10))

/-- `hex::encode`: each byte as two lowercase hex digits, high nibble first. -/
def hex_encode (bytes : List (Fin 256)) : String :=
  String.mk (bytes.flatMap (fun b =>
    [hex_digit ⟨b.val / 16, by omega⟩, hex_digit ⟨b.val % 16, by omega⟩]))

/-- `init_request_id`, parametric in the digest function of the `sha2`
crate. -/
def init_request_id (sha256 : String → List (Fin 256))
    (deploymentId moduleName functionName timestamp : String) : String :=
  hex_encode (sha256 (request_id_input deploymentId moduleName functionName timestamp))

/-! ## Imported host functions (`link_remote_functions`,
src/lib/wasmtime.rs lines 236-272)

Each `func_new` call registers one import under a namespace with the
`FuncType` written at the call site; the list below transcribes the four
registrations in order. -/

structure LinkedImport where
  ns : String
  name : String
  params : List ValType
  results : List ValType
deriving DecidableEq, Repr

/-- The imports `link_remote_functions` installs into the linker. -/
def link_remote_functions : List LinkedImport :=
  [ { ns := "camera", name := "takeImageDynamicSize",
      params := [.i32, .i32], results := [] },
    { ns := "camera", name := "takeImageStaticSize",
      params := [.i32, .i32], results := [] },
    { ns := "camera", name := "takeImage",
      params := [.i32, .i32], results := [] },
    { ns := "network", name := "ping",
      params := [.i32, .i32, .i32, .i32], results := [.f32] } ]

/-! ## The terminal execution path of `do_wasm_work`
(src/api/run.rs lines 281-523)

For a request whose deployment has no next hop, `do_wasm_work` runs the
function, decodes the first output value, interprets it against the
endpoint's response and returns `Ok(json!(..))`; `make_history` then marks
the entry successful.  There is no error branch between `run_function` and
`make_history` for the call itself: `run_function` is infallible.

Modelled from the spec: `parse_endpoint_result` lives in
`src/structs/deployment_supervisor.rs`, which is absent from the snapshot;
per the spec, for an `application/json` response the primitive result is
passed through unchanged, which is the interpretation used here. -/

def execute_and_record (rt : RuntimeModel) (entry : RequestEntry)
    (args : List Val) : RequestEntry :=
  let returnCount := (get_return_types rt entry.module_name entry.function_name).length
  let outputVals := run_function rt entry.module_name entry.function_name args returnCount
  let raw := decode_raw_output outputVals
  (make_history { entry with result := some raw } (.ok raw)).1

/-! ## Concrete fixtures used by counterexamples and witnesses -/

/-- A function of one `i32` result whose body always traps. -/
def trap_fn : FuncModel :=
  { paramTypes := [], resultTypes := [.i32],
    impl := fun _ => .error "wasm trap: unreachable" }

/-- A function of one `i32` result that returns zero successfully. -/
def zero_fn : FuncModel :=
  { paramTypes := [], resultTypes := [.i32],
    impl := fun _ => .ok [Val.i32 0] }

/-- A runtime with one module `m` exporting the trapping function `f`. -/
def trap_runtime : RuntimeModel :=
  { modules := [("m", { inst := some { functions := [("f", trap_fn)], mem := [] } })] }

/-- A runtime with one module `m` exporting the zero-returning function `f`. -/
def zero_runtime : RuntimeModel :=
  { modules := [("m", { inst := some { functions := [("f", zero_fn)], mem := [] } })] }

/-- A runtime with no modules loaded. -/
def empty_runtime : RuntimeModel := { modules := [] }

/-- A freshly created request entry for `d/m/f`. -/
def sample_entry : RequestEntry :=
  { request_id := "", deployment_id := "d", module_name := "m",
    function_name := "f", method := "GET", step_index := 0,
    result := none, outputs := [], success := false }

/-- A multipart request body with two binary properties covered by encoding
entries (`img`, `data`), one binary property without a usable encoding entry
(`tag`) and one non-binary property (`count`). -/
def sample_multipart : MultipartMediaType :=
  { media_type := "multipart/form-data",
    schema :=
      { type := "object",
        properties :=
          [("img", { type := "string", format := some "binary" }),
           ("count", { type := "integer", format := none }),
           ("data", { type := "string", format := some "binary" }),
           ("tag", { type := "string", format := some "binary" })] },
    encoding :=
      [("img", { content_type := some "image/jpeg" }),
       ("data", { content_type := some "application/octet-stream" }),
       ("tag", { content_type := none })] }

/-- A filesystem with a single source module `mod.wasm` of mtime 5 and no
serialized artifact. -/
def sample_fs : FsTimes :=
  fun p => if p = "mod.wasm" then some 5 else none

/-- A supervisor state holding one deployment `dep1` with its JSON document
and its two data directories on disk. -/
def sample_state : SupervisorState Nat :=
  { deployments := [("dep1", 0)],
    fs := { files := [get_deployment_path "dep1"],
            dirs := [module_deployment_path "dep1",
                     params_deployment_path "dep1"] } }

/-- A concrete stand-in digest used only to instantiate hash-parametric
statements at explicit inputs: each character becomes one byte.  It separates
the two colliding hash inputs of the counterexample below, so the collision
exhibited there is created by the `d:m:f:t` concatenation, not by the
digest. -/
def demo_digest (s : String) : List (Fin 256) :=
  s.data.map (fun c => ⟨c.toNat % 256, Nat.mod_lt _ (by norm_num)⟩)

/-! # Theorems

Helper lemmas first, then one theorem per claim (with counterexamples and
witnesses where the claim's status requires them). -/

/-- Looking up a key right after `header_insert` finds the inserted value. -/
theorem lookup_header_insert (hs : List (String × String)) (k v : String) :
    (header_insert hs k v).lookup k = some v := by
  induction hs with
  | nil => simp [header_insert, List.lookup]
  | cons p t ih =>
      by_cases hp : p.1 = k
      · simpa [header_insert, hp] using ih
      · have hk : (k == p.1) = false := beq_eq_false_iff_ne.mpr (Ne.symm hp)
        simpa [header_insert, List.lookup, hp, hk] using ih

/-- Claim C1, counterexample: with `MAX_DEPLOYMENT_STEPS = 10`, a request
arriving with `X-Chain-Step: 10` is NOT rejected — the guard is strict
(`step_index > MAX_DEPLOYMENT_STEPS`), so the handler proceeds into the rest
of the pipeline (here: a continuation that performs one Wasm call and one
outbound request, both of which happen). -/
theorem run_module_function_step_ten_not_rejected :
    run_module_function 10 (some 10)
        (fun _ => { status := 200,
                    effects := { wasmCalls := 1, outboundRequests := 1 } })
      = { status := 200, effects := { wasmCalls := 1, outboundRequests := 1 } } ∧
    (run_module_function 10 (some 10)
        (fun _ => { status := 200,
                    effects := { wasmCalls := 1, outboundRequests := 1 } })).status ≠ 400 := by
  constructor
  · rfl
  · decide

/-- Claim C1 (amended): every request whose `X-Chain-Step` value strictly
exceeds `MAX_DEPLOYMENT_STEPS` is rejected with 400 before any preparation,
with no Wasm call and no outbound request, whatever the rest of the handler
would have done; in particular with `MAX_STEPS = 10` this applies from
`X-Chain-Step: 11` on (step 10 itself is still executed). -/
theorem run_module_function_rejects_excess_steps (maxSteps : Nat)
    (header : Option Nat) (rest : Nat → HandlerResult)
    (h : chain_step_of_header header > maxSteps) :
    run_module_function maxSteps header rest
      = { status := 400, effects := { wasmCalls := 0, outboundRequests := 0 } } := by
  simp only [run_module_function, if_pos h]

/-- Witness for the amended C1 theorem at `MAX_STEPS = 10`,
`X-Chain-Step: 11`. -/
theorem run_module_function_rejects_excess_steps_witness :
    run_module_function 10 (some 11)
        (fun _ => { status := 200,
                    effects := { wasmCalls := 1, outboundRequests := 1 } })
      = { status := 400, effects := { wasmCalls := 0, outboundRequests := 0 } } :=
  run_module_function_rejects_excess_steps 10 (some 11) _ (by decide)

/-- Claim C4: the `X-Chain-Step` header of the chained next-hop request
equals the incoming request's step index plus one (the incoming step is below
`usize::MAX`, as every request passing the chain-depth guard under any
realistic `MAX_DEPLOYMENT_STEPS` is, so `saturating_add` does not
saturate). -/
theorem chained_request_step_increments (callHeaders : List (String × String))
    (stepIndex : Nat) (h : stepIndex < USIZE_MAX) :
    (chained_request_headers callHeaders stepIndex).lookup "x-chain-step"
      = some (toString (stepIndex + 1)) := by
  have hsat : saturating_add_one stepIndex = stepIndex + 1 :=
    Nat.min_eq_left (by omega)
  unfold chained_request_headers
  rw [hsat] at *
  simpa [hsat] using
    lookup_header_insert
      (callHeaders.map (fun p => (p.1.toLower, p.2)))
      "x-chain-step" (toString (stepIndex + 1))

/-- Witness for C4 at step 3 with a header already present under the same
name (it is replaced, not duplicated). -/
theorem chained_request_step_increments_witness :
    (chained_request_headers
        [("content-type", "application/json"), ("X-Chain-Step", "7")] 3).lookup
      "x-chain-step" = some (toString (3 + 1)) :=
  chained_request_step_increments
    [("content-type", "application/json"), ("X-Chain-Step", "7")] 3 (by decide)

/-- Claim C9, counterexample: `link_remote_functions` registers `ping` with
four `i32` parameters and a single `f32` result, not five parameters and
three results. -/
theorem ping_registration_counterexample :
    ({ ns := "network", name := "ping",
       params := [.i32, .i32, .i32, .i32],
       results := [.f32] } : LinkedImport) ∈ link_remote_functions ∧
    (link_remote_functions.filter (fun i => i.name = "ping")).map
        (fun i => (i.params, i.results))
      = [([ValType.i32, .i32, .i32, .i32], [ValType.f32])] ∧
    ([ValType.i32, .i32, .i32, .i32] : List ValType).length ≠ 5 ∧
    ([ValType.f32] : List ValType) ≠ [.f32, .f32, .f32] := by
  refine ⟨?_, ?_, ?_, ?_⟩ <;> decide

/-- Claim C9 (amended): the imported host function `ping` is registered
exactly once, under the `network` namespace, with signature
`(i32, i32, i32, i32) → (f32)`: four `i32` parameters and one `f32`
result. -/
theorem ping_registration :
    link_remote_functions.filter (fun i => i.name = "ping")
      = [{ ns := "network", name := "ping",
           params := [.i32, .i32, .i32, .i32], results := [.f32] }] := by
  decide

/-- Claim C10: for a module name that is not loaded in the runtime, both
memory operations succeed with `Ok(())`, leaving the destination buffer and
the runtime (hence every linear memory) unchanged — indistinguishable from a
successful access. -/
theorem memory_access_unknown_module_succeeds (rt : RuntimeModel)
    (moduleName : String) (offset : Nat) (buffer : List Nat)
    (h : rt.modules.lookup moduleName = none) :
    read_from_memory rt moduleName offset buffer = .ok buffer ∧
    write_to_memory rt moduleName offset buffer = .ok rt := by
  have hmem : get_memory rt moduleName = none := by
    simp [get_memory, get_instance, get_module, h]
  constructor
  · simp [read_from_memory, hmem]
  · simp [write_to_memory, hmem]

/-- Witness for C10 on the empty runtime. -/
theorem memory_access_unknown_module_succeeds_witness :
    read_from_memory empty_runtime "m" 4 [1, 2, 3] = .ok [1, 2, 3] ∧
    write_to_memory empty_runtime "m" 4 [1, 2, 3] = .ok empty_runtime :=
  memory_access_unknown_module_succeeds empty_runtime "m" 4 [1, 2, 3] rfl

/-- Claim C3: when loading a module not already present in the runtime, the
compiler runs and a fresh serialized artifact is written if and only if the
serialized artifact is missing or strictly older than the source `.wasm`
(whose metadata must be readable); otherwise nothing is written and the
existing artifact is deserialized in place. -/
theorem load_module_cache_policy (now : Nat) (fs : FsTimes)
    (loaded : List String) (name srcPath serialPath : String)
    (hnew : name ∉ loaded) (srcT : Nat) (hsrc : fs srcPath = some srcT) :
    ∃ compiled fs2,
      load_module now fs loaded name srcPath serialPath = .ok (compiled, fs2) ∧
      (compiled = true ↔
        fs serialPath = none ∨
          ∃ serialT, fs serialPath = some serialT ∧ serialT < srcT) ∧
      (compiled = true → fs2 serialPath = some now) ∧
      (compiled = false → fs2 = fs) := by
  cases hser : fs serialPath with
  | none =>
      refine ⟨true, fun p => if p = serialPath then some now else fs p, ?_, ?_, ?_, ?_⟩
      · simp [load_module, should_compile, hnew, hser]
      · exact iff_of_true rfl (Or.inl rfl)
      · intro _; simp
      · intro h; exact absurd h (by decide)
  | some serialT =>
      by_cases hlt : serialT < srcT
      · refine ⟨true, fun p => if p = serialPath then some now else fs p, ?_, ?_, ?_, ?_⟩
        · simp [load_module, should_compile, hnew, hser, hsrc, hlt]
        · exact iff_of_true rfl (Or.inr ⟨serialT, rfl, hlt⟩)
        · intro _; simp
        · intro h; exact absurd h (by decide)
      · refine ⟨false, fs, ?_, ?_, ?_, ?_⟩
        · simp [load_module, should_compile, hnew, hser, hsrc, hlt]
        · refine iff_of_false (by decide) ?_
          rintro (h | ⟨t, ht, hlt2⟩)
          · exact Option.noConfusion h
          · injection ht with ht2
            omega
        · intro h; exact absurd h (by decide)
        · intro _; rfl

/-- Witness for C3: a missing artifact forces compilation, and the artifact
then carries the load-time mtime. -/
theorem load_module_cache_policy_witness :
    sample_fs "mod.wasm" = some 5 ∧
    ∃ compiled fs2,
      load_module 9 sample_fs [] "m" "mod.wasm" "mod.SERIALIZED.wasm"
        = .ok (compiled, fs2) ∧
      (compiled = true ↔
        sample_fs "mod.SERIALIZED.wasm" = none ∨
          ∃ serialT, sample_fs "mod.SERIALIZED.wasm" = some serialT ∧ serialT < 5) ∧
      (compiled = true → fs2 "mod.SERIALIZED.wasm" = some 9) ∧
      (compiled = false → fs2 = sample_fs) :=
  ⟨by decide,
   load_module_cache_policy 9 sample_fs [] "m" "mod.wasm" "mod.SERIALIZED.wasm"
     (by decide) 5 (by decide)⟩

/-- Claim C5, counterexample: a call to a function whose body traps is not
reported as an invocation failure — `run_function` returns the pristine
zero-filled buffer, equal to the output of a function that successfully
returns zero, and the terminal request entry produced by the (no-next-hop)
execution path is recorded with `success = true` and the decoded zero as its
result, not with `success = false` and the trap message. -/
theorem trap_recorded_as_success :
    run_function trap_runtime "m" "f" [] 1 = [Val.i32 0] ∧
    run_function trap_runtime "m" "f" [] 1 = run_function zero_runtime "m" "f" [] 1 ∧
    (execute_and_record trap_runtime sample_entry []).success = true ∧
    (execute_and_record trap_runtime sample_entry []).result = some (JsonVal.num 0) := by
  refine ⟨?_, ?_, ?_, ?_⟩ <;> rfl

/-- Claim C5 (amended): a trapping or signature-mismatched Wasm call is
swallowed by `run_function`, which discards the error and returns the
zero-initialized result buffer; an entry is recorded with `success = false`
and the message in `result` exactly when `do_wasm_work` itself returns an
error (deployment lookup, preparation, chained-call failures), and with
`success = true` whenever it returns `Ok` — which it does even for a trapped
call. -/
theorem wasm_call_failures_swallowed :
    (∀ (rt : RuntimeModel) (m f : String) (params : List Val) (n : Nat)
        (fn : FuncModel) (e : String),
        get_function rt m f = some fn → func_call fn params n = .error e →
        run_function rt m f params n = List.replicate n (Val.i32 0)) ∧
    (∀ (entry : RequestEntry) (e : String),
        (make_history entry (.error e)).1.success = false ∧
        (make_history entry (.error e)).1.result = some (JsonVal.str e)) ∧
    (∀ (entry : RequestEntry) (v : JsonVal),
        (make_history entry (.ok v)).1.success = true) := by
  refine ⟨?_, ?_, ?_⟩
  · intro rt m f params n fn e hg hc
    simp [run_function, hg, hc]
  · intro entry e
    exact ⟨rfl, rfl⟩
  · intro entry v
    rfl

/-- Witness for the amended C5 theorem on the trapping fixture. -/
theorem wasm_call_failures_swallowed_witness :
    run_function trap_runtime "m" "f" [] 1 = List.replicate 1 (Val.i32 0) ∧
    (make_history sample_entry (.error "boom")).1.success = false :=
  ⟨wasm_call_failures_swallowed.1 trap_runtime "m" "f" [] 1 trap_fn
      "wasm trap: unreachable" rfl rfl,
   (wasm_call_failures_swallowed.2.1 sample_entry "boom").1⟩

/-- Claim C6: `run_function` always returns a vector of length exactly
`returns` (the expected result count): the buffer is pre-sized with
`Val::I32(0)`, and whenever the function's actual arity differs from
`returns` the call fails and every slot remains the zero value. -/
theorem run_function_result_shape (rt : RuntimeModel) (m f : String)
    (params : List Val) (n : Nat) :
    (run_function rt m f params n).length = n ∧
    (∀ fn, get_function rt m f = some fn → fn.resultTypes.length ≠ n →
      run_function rt m f params n = List.replicate n (Val.i32 0)) := by
  constructor
  · unfold run_function
    cases hf : get_function rt m f with
    | none => simp
    | some fn =>
        unfold func_call
        by_cases h1 : params.map Val.type ≠ fn.paramTypes
        · simp [h1]
        · by_cases h2 : n ≠ fn.resultTypes.length
          · simp [h1, h2]
          · push_neg at h2
            cases hi : fn.impl params with
            | error e => simp [h1, h2, hi]
            | ok vals =>
                by_cases h3 : vals.map Val.type = fn.resultTypes
                · have hlen : vals.length = n := by
                    have := congrArg List.length h3
                    simpa [h2] using this
                  simp [h1, h2, hi, h3, hlen]
                · simp [h1, h2, hi, h3]
  · intro fn hga hne
    by_cases h1 : params.map Val.type ≠ fn.paramTypes
    · simp [run_function, hga, func_call, h1]
    · simp [run_function, hga, func_call, h1, Ne.symm hne]

/-- Witness for C6: asking the trapping one-result function for three
results yields three zero slots. -/
theorem run_function_result_shape_witness :
    (run_function trap_runtime "m" "f" [] 3).length = 3 ∧
    run_function trap_runtime "m" "f" [] 3 = List.replicate 3 (Val.i32 0) :=
  ⟨(run_function_result_shape trap_runtime "m" "f" [] 3).1,
   (run_function_result_shape trap_runtime "m" "f" [] 3).2 trap_fn rfl (by decide)⟩

/-- Association-list lookup misses after filtering out every pair with the
looked-up key. -/
theorem lookup_filter_ne_none {α : Type} (l : List (String × α)) (k : String) :
    (l.filter (fun p => p.1 ≠ k)).lookup k = none := by
  induction l with
  | nil => rfl
  | cons p t ih =>
      obtain ⟨pk, pv⟩ := p
      by_cases hp : pk = k
      · simpa [List.filter_cons, hp] using ih
      · have hk : (k == pk) = false := beq_eq_false_iff_ne.mpr (Ne.symm hp)
        simpa [List.filter_cons, hp, List.lookup, hk] using ih

/-- A removed path is gone from the path list. -/
theorem not_mem_fs_remove (l : List String) (p : String) :
    p ∉ fs_remove l p := by
  simp [fs_remove]

/-- Claim C7: deleting an unknown deployment id answers 404 and changes
nothing (no file or directory is removed or created); deleting a known id
answers 200, removes it from the registry, and deletes exactly its JSON
document and its two data directories. -/
theorem deployment_delete_spec {δ : Type} (st : SupervisorState δ)
    (deploymentId : String) :
    (st.deployments.lookup deploymentId = none →
      deployment_delete st deploymentId = (st, 404)) ∧
    (∀ d, st.deployments.lookup deploymentId = some d →
      (deployment_delete st deploymentId).2 = 200 ∧
      (deployment_delete st deploymentId).1.deployments.lookup deploymentId = none ∧
      get_deployment_path deploymentId ∉ (deployment_delete st deploymentId).1.fs.files ∧
      module_deployment_path deploymentId ∉ (deployment_delete st deploymentId).1.fs.dirs ∧
      params_deployment_path deploymentId ∉ (deployment_delete st deploymentId).1.fs.dirs ∧
      (deployment_delete st deploymentId).1.fs.files
        = fs_remove st.fs.files (get_deployment_path deploymentId) ∧
      (deployment_delete st deploymentId).1.fs.dirs
        = fs_remove (fs_remove st.fs.dirs (module_deployment_path deploymentId))
            (params_deployment_path deploymentId)) := by
  constructor
  · intro h
    simp [deployment_delete, h]
  · intro d hd
    refine ⟨?_, ?_, ?_, ?_, ?_, ?_, ?_⟩
    · simp [deployment_delete, hd]
    · simpa [deployment_delete, hd] using
        lookup_filter_ne_none st.deployments deploymentId
    · simpa [deployment_delete, hd] using
        not_mem_fs_remove st.fs.files (get_deployment_path deploymentId)
    · simp only [deployment_delete, hd]
      intro hmem
      exact not_mem_fs_remove st.fs.dirs (module_deployment_path deploymentId)
        (List.mem_of_mem_filter hmem)
    · simpa [deployment_delete, hd] using
        not_mem_fs_remove
          (fs_remove st.fs.dirs (module_deployment_path deploymentId))
          (params_deployment_path deploymentId)
    · simp [deployment_delete, hd]
    · simp [deployment_delete, hd]

/-- Witness for C7: a 404 no-op on the empty registry and a full deletion of
the sample deployment. -/
theorem deployment_delete_spec_witness :
    deployment_delete (δ := Nat) { deployments := [], fs := { files := [], dirs := [] } } "dep1"
      = ({ deployments := [], fs := { files := [], dirs := [] } }, 404) ∧
    (deployment_delete sample_state "dep1").2 = 200 ∧
    (deployment_delete sample_state "dep1").1.deployments.lookup "dep1" = none :=
  ⟨(deployment_delete_spec { deployments := [], fs := { files := [], dirs := [] } } "dep1").1 rfl,
   ((deployment_delete_spec sample_state "dep1").2 0 rfl).1,
   ((deployment_delete_spec sample_state "dep1").2 0 rfl).2.1⟩

/-- `filterMap` yields one output element per input the function fires on. -/
theorem length_filterMap_eq_countP {α β : Type} (f : α → Option β) (l : List α) :
    (l.filterMap f).length = l.countP (fun a => (f a).isSome) := by
  induction l with
  | nil => rfl
  | cons a t ih =>
      cases h : f a with
      | none => simp [List.filterMap_cons, h, List.countP_cons, ih]
      | some b => simp [List.filterMap_cons, h, List.countP_cons, ih]

/-- When a property fires in the collection loop of `list_from_multipart`:
it is binary and its encoding entry carries a `contentType`. -/
theorem mount_of_property_isSome (enc : List (String × OpenApiEncodingObject))
    (p : String × SchemaProperty) :
    (mount_of_property enc p).isSome =
      (decide (p.2.type = "string") && decide (p.2.format = some "binary") &&
        ((enc.lookup p.1).bind OpenApiEncodingObject.content_type).isSome) := by
  unfold mount_of_property
  by_cases h : p.2.type = "string" ∧ p.2.format = some "binary"
  · cases hct : (enc.lookup p.1).bind OpenApiEncodingObject.content_type <;>
      simp [h, h.1, h.2, hct]
  · rw [if_neg h]
    rcases not_and_or.mp h with h1 | h2
    · simp [h1]
    · simp [h2]

/-- The exact mount a firing property produces. -/
theorem mount_of_property_eq_some (enc : List (String × OpenApiEncodingObject))
    (p : String × SchemaProperty) (mt : MountPathFile) :
    mount_of_property enc p = some mt ↔
      p.2.type = "string" ∧ p.2.format = some "binary" ∧
      (enc.lookup p.1).bind OpenApiEncodingObject.content_type = some mt.media_type ∧
      mt.path = p.1 ∧ mt.stage = none := by
  constructor
  · intro hsome
    unfold mount_of_property at hsome
    by_cases h : p.2.type = "string" ∧ p.2.format = some "binary"
    · rw [if_pos h] at hsome
      cases hct : (enc.lookup p.1).bind OpenApiEncodingObject.content_type with
      | none => rw [hct] at hsome; exact Option.noConfusion hsome
      | some ct =>
          rw [hct] at hsome
          injection hsome with hmt
          subst hmt
          exact ⟨h.1, h.2, rfl, rfl, rfl⟩
    · rw [if_neg h] at hsome
      exact Option.noConfusion hsome
  · rintro ⟨h1, h2, hct, hpath, hstage⟩
    unfold mount_of_property
    rw [if_pos ⟨h1, h2⟩, hct]
    obtain ⟨mpath, mmedia, mstage⟩ := mt
    simp only at hpath hstage
    subst hpath
    subst hstage
    rfl

/-- Claim C2 (amended): any media type other than `multipart/form-data` is
rejected with an error; and for a `multipart/form-data` body with an object
schema that has at least one property (an object schema with no properties
at all is rejected with an error), the derived mount list has exactly one
element per property of type `string`/`binary` whose encoding entry carries
a `contentType`, and a mount with a given path belongs to the list exactly
when such a property of that name exists, the mount's media type being the
encoding's `contentType`. -/
theorem list_from_multipart_spec :
    (∀ m : MultipartMediaType, m.media_type ≠ "multipart/form-data" →
      ∃ e, list_from_multipart m = Except.error e) ∧
    (∀ m : MultipartMediaType,
      m.media_type = "multipart/form-data" → m.schema.type = "object" →
      m.schema.properties ≠ [] →
      ∃ mounts, list_from_multipart m = Except.ok mounts ∧
        mounts.length = m.schema.properties.countP
          (fun p => decide (p.2.type = "string") && decide (p.2.format = some "binary") &&
            ((m.encoding.lookup p.1).bind OpenApiEncodingObject.content_type).isSome) ∧
        (∀ mt : MountPathFile, mt ∈ mounts ↔
          ∃ prop, (mt.path, prop) ∈ m.schema.properties ∧
            prop.type = "string" ∧ prop.format = some "binary" ∧
            (m.encoding.lookup mt.path).bind OpenApiEncodingObject.content_type
              = some mt.media_type ∧ mt.stage = none)) := by
  constructor
  · intro m hm
    refine ⟨"Expected multipart/form-data, got " ++ m.media_type, ?_⟩
    simp [list_from_multipart, hm]
  · intro m hm hobj hne
    refine ⟨m.schema.properties.filterMap (mount_of_property m.encoding), ?_, ?_, ?_⟩
    · simp [list_from_multipart, hm, hobj, hne]
    · rw [length_filterMap_eq_countP]
      exact List.countP_congr (fun p _ => by rw [mount_of_property_isSome])
    · intro mt
      rw [List.mem_filterMap]
      constructor
      · rintro ⟨⟨pk, pv⟩, hp, hsome⟩
        obtain ⟨h1, h2, hct, hpath, hstage⟩ :=
          (mount_of_property_eq_some _ _ _).mp hsome
        refine ⟨pv, ?_, h1, h2, ?_, hstage⟩
        · rw [hpath]; exact hp
        · rw [hpath]; exact hct
      · rintro ⟨prop, hmem, h1, h2, hct, hstage⟩
        exact ⟨(mt.path, prop), hmem,
          (mount_of_property_eq_some _ _ _).mpr ⟨h1, h2, hct, rfl, hstage⟩⟩

/-- Claim C2, counterexample: a `multipart/form-data` body with an object
schema that has no properties is rejected with an error, where the claim's
count statement (`k = 0` binary properties, hence a derived list of zero
elements) requires `Ok([])`. -/
theorem list_from_multipart_empty_schema_errors :
    list_from_multipart
        { media_type := "multipart/form-data",
          schema := { type := "object", properties := [] }, encoding := [] }
      = Except.error
          "Expected properties for multipart schema, properties was empty instead." ∧
    list_from_multipart
        { media_type := "multipart/form-data",
          schema := { type := "object", properties := [] }, encoding := [] }
      ≠ Except.ok [] := by
  refine ⟨rfl, fun h => ?_⟩
  rw [show list_from_multipart
        { media_type := "multipart/form-data",
          schema := { type := "object", properties := [] }, encoding := [] }
      = Except.error
          "Expected properties for multipart schema, properties was empty instead."
    from rfl] at h
  exact Except.noConfusion h

/-- Witness for the amended C2 theorem on the four-property sample body. -/
theorem list_from_multipart_spec_witness :
    ∃ mounts, list_from_multipart sample_multipart = Except.ok mounts ∧
      mounts.length = sample_multipart.schema.properties.countP
        (fun p => decide (p.2.type = "string") && decide (p.2.format = some "binary") &&
          ((sample_multipart.encoding.lookup p.1).bind
            OpenApiEncodingObject.content_type).isSome) ∧
      (∀ mt : MountPathFile, mt ∈ mounts ↔
        ∃ prop, (mt.path, prop) ∈ sample_multipart.schema.properties ∧
          prop.type = "string" ∧ prop.format = some "binary" ∧
          (sample_multipart.encoding.lookup mt.path).bind
            OpenApiEncodingObject.content_type = some mt.media_type ∧
          mt.stage = none) :=
  list_from_multipart_spec.2 sample_multipart rfl rfl (by decide)

/-- The lowercase hex digits of distinct nibbles differ. -/
theorem hex_digit_injective : ∀ a b : Fin 16, hex_digit a = hex_digit b → a = b := by
  decide

/-- A byte is determined by its two nibbles. -/
theorem fin256_eq_of_nibbles {a b : Fin 256}
    (hhi : a.val / 16 = b.val / 16) (hlo : a.val % 16 = b.val % 16) : a = b := by
  apply Fin.ext
  omega

/-- `hex::encode` is injective on digests. -/
theorem hex_encode_injective :
    ∀ b1 b2 : List (Fin 256), hex_encode b1 = hex_encode b2 → b1 = b2 := by
  intro b1
  induction b1 with
  | nil =>
      intro b2 h
      cases b2 with
      | nil => rfl
      | cons c u =>
          exfalso
          unfold hex_encode at h
          injection h with hdata
          simp [List.flatMap_cons] at hdata
  | cons a t ih =>
      intro b2 h
      cases b2 with
      | nil =>
          exfalso
          unfold hex_encode at h
          injection h with hdata
          simp [List.flatMap_cons] at hdata
      | cons c u =>
          unfold hex_encode at h
          injection h with hdata
          simp only [List.flatMap_cons, List.cons_append, List.nil_append] at hdata
          injection hdata with hhi hdata2
          injection hdata2 with hlo hdata3
          have hac : a = c := by
            have h1 := hex_digit_injective _ _ hhi
            have h2 := hex_digit_injective _ _ hlo
            exact fin256_eq_of_nibbles (congrArg Fin.val h1) (congrArg Fin.val h2)
          have htu : t = u := ih u (congrArg String.mk hdata3)
          rw [hac, htu]

/-- Two colon-free segments followed by a colon split a character list
uniquely. -/
theorem append_colon_inj :
    ∀ a1 a2 r1 r2 : List Char, ':' ∉ a1 → ':' ∉ a2 →
      a1 ++ ':' :: r1 = a2 ++ ':' :: r2 → a1 = a2 ∧ r1 = r2 := by
  intro a1
  induction a1 with
  | nil =>
      intro a2 r1 r2 h1 h2 h
      cases a2 with
      | nil =>
          simp only [List.nil_append] at h
          injection h with _ hr
          exact ⟨rfl, hr⟩
      | cons b t =>
          simp only [List.nil_append, List.cons_append] at h
          injection h with hb _
          exact absurd (hb ▸ List.mem_cons_self b t) h2
  | cons x xs ih =>
      intro a2 r1 r2 h1 h2 h
      cases a2 with
      | nil =>
          simp only [List.nil_append, List.cons_append] at h
          injection h with hb _
          exact absurd (hb ▸ List.mem_cons_self x xs) h1
      | cons y ys =>
          simp only [List.cons_append] at h
          injection h with hxy hrest
          have hx1 : ':' ∉ xs := fun hm => h1 (List.mem_cons_of_mem x hm)
          have hy2 : ':' ∉ ys := fun hm => h2 (List.mem_cons_of_mem y hm)
          obtain ⟨ha, hr⟩ := ih ys r1 r2 hx1 hy2 hrest
          exact ⟨by rw [hxy, ha], hr⟩

/-- The character list underlying the hashed `d:m:f:t` string. -/
theorem request_id_input_data (d m f t : String) :
    (request_id_input d m f t).data
      = d.data ++ ':' :: (m.data ++ ':' :: (f.data ++ ':' :: t.data)) := by
  simp [request_id_input, String.data_append]

/-- When the deployment id, module name and function name are colon-free,
the `d:m:f:t` concatenation hashed by `init_request_id` is injective (the
timestamp may contain colons: it occupies the final segment). -/
theorem request_id_input_inj (d1 m1 f1 t1 d2 m2 f2 t2 : String)
    (hd1 : ':' ∉ d1.data) (hm1 : ':' ∉ m1.data) (hf1 : ':' ∉ f1.data)
    (hd2 : ':' ∉ d2.data) (hm2 : ':' ∉ m2.data) (hf2 : ':' ∉ f2.data)
    (h : request_id_input d1 m1 f1 t1 = request_id_input d2 m2 f2 t2) :
    d1 = d2 ∧ m1 = m2 ∧ f1 = f2 ∧ t1 = t2 := by
  have hdata := congrArg String.data h
  rw [request_id_input_data, request_id_input_data] at hdata
  obtain ⟨hd, hrest⟩ := append_colon_inj _ _ _ _ hd1 hd2 hdata
  obtain ⟨hm, hrest2⟩ := append_colon_inj _ _ _ _ hm1 hm2 hrest
  obtain ⟨hf, ht⟩ := append_colon_inj _ _ _ _ hf1 hf2 hrest2
  exact ⟨String.ext hd, String.ext hm, String.ext hf, String.ext ht⟩

/-- Claim C8, counterexample: two distinct `(deployment, module, function,
timestamp)` tuples whose components merely move a `:`-separated fragment
between fields produce the same hash input, hence the same request id — even
under the injective concrete digest `demo_digest`, so no collision-resistance
assumption can save the claim. -/
theorem init_request_id_collision :
    init_request_id demo_digest "alpha:beta" "gamma" "delta"
        "2025-01-01T00:00:00+00:00"
      = init_request_id demo_digest "alpha" "beta:gamma" "delta"
        "2025-01-01T00:00:00+00:00" ∧
    ("alpha:beta", "gamma", "delta", "2025-01-01T00:00:00+00:00")
      ≠ ("alpha", "beta:gamma", "delta", "2025-01-01T00:00:00+00:00") := by
  constructor
  · have h : request_id_input "alpha:beta" "gamma" "delta"
        "2025-01-01T00:00:00+00:00"
        = request_id_input "alpha" "beta:gamma" "delta"
          "2025-01-01T00:00:00+00:00" := by decide
    exact congrArg (fun s => hex_encode (demo_digest s)) h
  · decide

/-- Claim C8 (amended): the request id is the lowercase hex encoding of the
SHA-256 digest of `deployment:module:function:timestamp`, and two distinct
tuples whose deployment, module and function components are colon-free yield
distinct request ids, assuming the digest does not collide on the two hash
inputs (SHA-256 collision resistance). -/
theorem request_id_unique (sha256 : String → List (Fin 256))
    (d1 m1 f1 t1 d2 m2 f2 t2 : String)
    (hcr : sha256 (request_id_input d1 m1 f1 t1)
             = sha256 (request_id_input d2 m2 f2 t2) →
           request_id_input d1 m1 f1 t1 = request_id_input d2 m2 f2 t2)
    (hd1 : ':' ∉ d1.data) (hm1 : ':' ∉ m1.data) (hf1 : ':' ∉ f1.data)
    (hd2 : ':' ∉ d2.data) (hm2 : ':' ∉ m2.data) (hf2 : ':' ∉ f2.data)
    (hne : (d1, m1, f1, t1) ≠ (d2, m2, f2, t2)) :
    init_request_id sha256 d1 m1 f1 t1 ≠ init_request_id sha256 d2 m2 f2 t2 := by
  intro h
  have hdig := hex_encode_injective _ _ h
  have hinput := hcr hdig
  obtain ⟨hd, hm, hf, ht⟩ :=
    request_id_input_inj d1 m1 f1 t1 d2 m2 f2 t2 hd1 hm1 hf1 hd2 hm2 hf2 hinput
  exact hne (by rw [hd, hm, hf, ht])

/-- Witness for the amended C8 theorem on two concrete colon-free tuples
under the concrete digest (which provably separates the two inputs). -/
theorem request_id_unique_witness :
    init_request_id demo_digest "dep" "mod" "fn" "2025-01-01T00:00:00+00:00"
      ≠ init_request_id demo_digest "dep2" "mod" "fn" "2025-01-01T00:00:00+00:00" :=
  request_id_unique demo_digest
    "dep" "mod" "fn" "2025-01-01T00:00:00+00:00"
    "dep2" "mod" "fn" "2025-01-01T00:00:00+00:00"
    (fun hh => absurd hh (by decide))
    (by decide) (by decide) (by decide) (by decide) (by decide) (by decide)
    (by decide)

end Supervisor
